import Mathlib

/-!
Shallow embedding of the RPC call registration, dispatch and correlation core
(`rpc.h`, current `RpcPacket`/`CallType` design).

The C++ core is templated over a user `Payload` type with `serialize`/`deserialize`
and over user hooks `sendRpcPacket` / `onResultReturned`.  The embedding keeps the
argument/result domain as a type parameter `V` and the serialized payload domain as
`W`, with the serialization boundary passed in as functions `ser : V -> W` and
`deser : W -> V`.  The external hooks are modelled as observable output: every
packet handed to `sendRpcPacket` is collected in `sent`, every invocation of a
bound local handler in `handlerCalls`, and every invocation of the completion
entry point `onResultReturned (callId, result)` in `results`.  An exception that
propagates out of `dispatch` (e.g. `std::bad_function_call` from invoking an
unbound `std::function`) is modelled as `error = some e` with the registry state
at throw time.

Machine integers: `CallId` is `uint32_t`, `InstanceId` and `FunctionId` are
`uint16_t`; they are embedded as `Nat` with explicit `% 2^32` / `% 2^16` where
the code can overflow (the `++callIdCounter` increment and the
`static_cast<FunctionId>(callHandlers.size())` cast).
-/

namespace Rpc

def UINT32_MOD : Nat := 2 ^ 32

def UINT16_MOD : Nat := 2 ^ 16

/-- `enum class CallType { Call, Response }`. -/
inductive CallType where
  | Call
  | Response
deriving DecidableEq, Repr

/-- `RpcPacket<Payload>`: the wire-independent envelope. `payload` lives in the
serialized domain `W`. -/
structure RpcPacket (W : Type) where
  instanceId : Nat
  functionId : Nat
  callId : Nat
  callType : CallType
  payload : W
deriving DecidableEq

/-- The per-method state of `RpcCall<Interface, Payload, ReturnType(Args...)>`:
the (possibly unbound) `remoteCallback`, whether `ReturnType` is `void`, and the
assigned `functionId`.  The callback operates on the deserialized argument
domain `V` and produces a result in `V`; for `void` methods the result is
discarded. -/
structure RpcCall (V : Type) where
  remoteCallback : Option (V → V)
  returnsVoid : Bool
  functionId : Nat

/-- The state owned by `RpcInterface<Interface, Payload>`: the call-id counter,
the instance id, the `callHandlers` vector (indexed by position) and the key set
of the `resultHandlers` map (every registered result handler has the same
uniform behaviour, so only the key set is state). -/
structure RpcInterfaceState (V : Type) where
  callIdCounter : Nat
  instanceId : Nat
  callHandlers : List (RpcCall V)
  resultHandlerIds : List Nat

/-- A freshly default-constructed interface: counter 0, instance id 0, empty
tables. -/
def initState (V : Type) : RpcInterfaceState V :=
  { callIdCounter := 0, instanceId := 0, callHandlers := [], resultHandlerIds := [] }

/-- `registerCall`: assigns `call.functionId = static_cast<FunctionId>(callHandlers.size())`,
appends `(&call, makeCallHandler())` to the vector, and for a non-void return
type inserts `resultHandlers[call.functionId] = makeResultHandler()` (an
`unordered_map` assignment: overwriting an existing key leaves the key set
unchanged). -/
def registerCall {V : Type} (st : RpcInterfaceState V) (call : RpcCall V) :
    RpcInterfaceState V :=
  let fid := st.callHandlers.length % UINT16_MOD
  { st with
    callHandlers := st.callHandlers ++ [{ call with functionId := fid }]
    resultHandlerIds :=
      if call.returnsVoid then st.resultHandlerIds
      else if fid ∈ st.resultHandlerIds then st.resultHandlerIds
      else fid :: st.resultHandlerIds }

/-- Constructing an interface object: every declared `RpcCall` field registers
itself with the interface in declaration order (the `= this` constructor). -/
def mkInterface {V : Type} (calls : List (RpcCall V)) : RpcInterfaceState V :=
  calls.foldl registerCall (initState V)

/-- `CallId getNextCallId() { return ++callIdCounter; }` with `CallId = uint32_t`:
pre-increment modulo `2^32`, returning the incremented value. -/
def getNextCallId {V : Type} (st : RpcInterfaceState V) :
    Nat × RpcInterfaceState V :=
  let c := (st.callIdCounter + 1) % UINT32_MOD
  (c, { st with callIdCounter := c })

/-- `void setInstanceId(InstanceId id)` with `InstanceId = uint16_t`. -/
def setInstanceId {V : Type} (st : RpcInterfaceState V) (id : Nat) :
    RpcInterfaceState V :=
  { st with instanceId := id % UINT16_MOD }

/-- Replace the `remoteCallback` of the descriptor at position `i`, leaving
every other descriptor and all other fields of the descriptor untouched. -/
def bindAt {V : Type} : List (RpcCall V) → Nat → (V → V) → List (RpcCall V)
  | [], _, _ => []
  | c :: cs, 0, f => { c with remoteCallback := some f } :: cs
  | c :: cs, n + 1, f => c :: bindAt cs n f

/-- `operator=(Functor&& f)`: binds (or rebinds) the `remoteCallback` of the
descriptor stored at position `i` of the `callHandlers` table. -/
def bindCallback {V : Type} (st : RpcInterfaceState V) (i : Nat) (f : V → V) :
    RpcInterfaceState V :=
  { st with callHandlers := bindAt st.callHandlers i f }

/-- `doRemoteCall<callType>(callId, args...)`: builds the packet — instance id
of the building endpoint, own `functionId`, the given `callId`, the given
`callType`, and `payload.serialize(args...)`.  The packet is what is handed to
`sendRpcPacket`. -/
def doRemoteCall {V W : Type} (ser : V → W) (st : RpcInterfaceState V)
    (fid : Nat) (ct : CallType) (callId : Nat) (args : V) : RpcPacket W :=
  { instanceId := st.instanceId
    functionId := fid
    callId := callId
    callType := ct
    payload := ser args }

/-- `operator()(args...)`: mints a fresh call id via `getNextCallId()`, builds a
`CallType::Call` packet via `doRemoteCall`, hands it to the transport send hook
and returns whatever the hook returns. -/
def invoke {V W ρ : Type} (ser : V → W) (send : RpcPacket W → ρ)
    (st : RpcInterfaceState V) (desc : RpcCall V) (args : V) :
    ρ × RpcInterfaceState V :=
  let next := getNextCallId st
  (send (doRemoteCall ser next.2 desc.functionId CallType.Call next.1 args), next.2)

/-- The exception that propagates out of `dispatch` when the looked-up
descriptor's `std::function` is invoked while unbound. -/
inductive RpcError where
  | badFunctionCall
deriving DecidableEq, Repr

/-- Everything observable about one `dispatch(packet)` run: the exception that
propagated (if any), the registry state when `dispatch` returned or threw, the
packets handed to `sendRpcPacket`, the invocations `(functionId, deserialized
args)` of bound local handlers, and the invocations `(callId, result)` of
`onResultReturned`. -/
structure DispatchResult (V W : Type) where
  error : Option RpcError
  state : RpcInterfaceState V
  sent : List (RpcPacket W)
  handlerCalls : List (Nat × V)
  results : List (Nat × V)

/-- The run in which `dispatch` did nothing: no error, state untouched, nothing
sent, no handler and no completion invoked. -/
def noopResult {V W : Type} (st : RpcInterfaceState V) : DispatchResult V W :=
  { error := none, state := st, sent := [], handlerCalls := [], results := [] }

/-- The lambda produced by `makeCallHandler()`: deserializes the payload into the
argument tuple and applies `remoteCallback` to it.  Invoking an unbound
`std::function` throws `std::bad_function_call`, which propagates.  For a
non-void return type the result is sent back via
`doRemoteCall<CallType::Response>(packet.callId, std::move(result))`. -/
def callHandler {V W : Type} (ser : V → W) (deser : W → V)
    (st : RpcInterfaceState V) (self : RpcCall V) (packet : RpcPacket W) :
    DispatchResult V W :=
  match self.remoteCallback with
  | none =>
      { error := some RpcError.badFunctionCall, state := st, sent := [],
        handlerCalls := [], results := [] }
  | some f =>
      let args := deser packet.payload
      if self.returnsVoid then
        { error := none, state := st, sent := [],
          handlerCalls := [(self.functionId, args)], results := [] }
      else
        { error := none, state := st
          sent := [doRemoteCall ser st self.functionId CallType.Response
                     packet.callId (f args)]
          handlerCalls := [(self.functionId, args)], results := [] }

/-- The lambda produced by `makeResultHandler()`: deserializes the result and
invokes `onResultReturned(packet.callId, result)`. -/
def resultHandler {V W : Type} (deser : W → V) (st : RpcInterfaceState V)
    (packet : RpcPacket W) : DispatchResult V W :=
  { error := none, state := st, sent := [], handlerCalls := [],
    results := [(packet.callId, deser packet.payload)] }

/-- `dispatch(packet)`: for a `Call`, index the `callHandlers` vector by
`functionId` (out of range is silently ignored); for a `Response`, look up
`functionId` in the `resultHandlers` map (absent key is silently ignored). -/
def dispatch {V W : Type} (ser : V → W) (deser : W → V)
    (st : RpcInterfaceState V) (packet : RpcPacket W) : DispatchResult V W :=
  if packet.callType = CallType.Call then
    match st.callHandlers.get? packet.functionId with
    | some self => callHandler ser deser st self packet
    | none => noopResult st
  else
    if packet.functionId ∈ st.resultHandlerIds then
      resultHandler deser st packet
    else
      noopResult st

/-- Sequentially dispatching a list of packets, collecting every
`onResultReturned (callId, result)` invocation. -/
def dispatchAll {V W : Type} (ser : V → W) (deser : W → V) :
    RpcInterfaceState V → List (RpcPacket W) → List (Nat × V)
  | _, [] => []
  | st, p :: ps =>
      (dispatch ser deser st p).results ++
        dispatchAll ser deser (dispatch ser deser st p).state ps

/-!  Helper lemmas shared by the claim theorems.  -/

theorem callHandler_state {V W : Type} (ser : V → W) (deser : W → V)
    (st : RpcInterfaceState V) (self : RpcCall V) (p : RpcPacket W) :
    (callHandler ser deser st self p).state = st := by
  unfold callHandler
  cases self.remoteCallback with
  | none => rfl
  | some f => dsimp only; split <;> rfl

theorem dispatch_state {V W : Type} (ser : V → W) (deser : W → V)
    (st : RpcInterfaceState V) (p : RpcPacket W) :
    (dispatch ser deser st p).state = st := by
  unfold dispatch
  split
  · cases hget : st.callHandlers.get? p.functionId <;> simp [hget, noopResult, callHandler_state]
  · split <;> rfl

theorem callHandler_results {V W : Type} (ser : V → W) (deser : W → V)
    (st : RpcInterfaceState V) (self : RpcCall V) (p : RpcPacket W) :
    (callHandler ser deser st self p).results = [] := by
  unfold callHandler
  cases self.remoteCallback with
  | none => rfl
  | some f => dsimp only; split <;> rfl

theorem dispatch_call_found {V W : Type} (ser : V → W) (deser : W → V)
    (st : RpcInterfaceState V) (p : RpcPacket W) (self : RpcCall V)
    (hct : p.callType = CallType.Call)
    (hget : st.callHandlers.get? p.functionId = some self) :
    dispatch ser deser st p = callHandler ser deser st self p := by
  unfold dispatch
  rw [if_pos hct, hget]

theorem callHandler_sent_callId {V W : Type} (ser : V → W) (deser : W → V)
    (st : RpcInterfaceState V) (self : RpcCall V) (p : RpcPacket W) :
    ∀ q ∈ (callHandler ser deser st self p).sent,
      q.callId = p.callId ∧ q.instanceId = st.instanceId := by
  unfold callHandler
  cases self.remoteCallback with
  | none => intro q hq; simp at hq
  | some f =>
      simp only
      split
      · intro q hq; simp at hq
      · intro q hq
        simp only [List.mem_singleton] at hq
        subst hq
        exact ⟨rfl, rfl⟩

theorem registerCall_callHandlers {V : Type} (st : RpcInterfaceState V)
    (c : RpcCall V) :
    (registerCall st c).callHandlers =
      st.callHandlers ++
        [{ c with functionId := st.callHandlers.length % UINT16_MOD }] := rfl

theorem foldl_registerCall_length {V : Type} (calls : List (RpcCall V))
    (st : RpcInterfaceState V) :
    (calls.foldl registerCall st).callHandlers.length =
      st.callHandlers.length + calls.length := by
  induction calls generalizing st with
  | nil => simp
  | cons c cs ih =>
      rw [List.foldl_cons, ih, registerCall_callHandlers, List.length_append]
      simp
      omega

theorem foldl_registerCall_get_lt {V : Type} (calls : List (RpcCall V))
    (st : RpcInterfaceState V) (i : Nat) (h : i < st.callHandlers.length) :
    (calls.foldl registerCall st).callHandlers.get? i =
      st.callHandlers.get? i := by
  induction calls generalizing st with
  | nil => rfl
  | cons c cs ih =>
      rw [List.foldl_cons,
        ih _ (by rw [registerCall_callHandlers, List.length_append]; omega),
        registerCall_callHandlers, List.get?_append h]

theorem foldl_registerCall_get_new {V : Type} (calls : List (RpcCall V))
    (st : RpcInterfaceState V) (i : Nat)
    (h1 : st.callHandlers.length ≤ i)
    (h2 : i < st.callHandlers.length + calls.length) :
    ((calls.foldl registerCall st).callHandlers.get? i).map
        (fun c => c.functionId) = some (i % UINT16_MOD) := by
  induction calls generalizing st with
  | nil => simp at h2; omega
  | cons c cs ih =>
      rw [List.foldl_cons]
      rcases Nat.lt_or_ge i (st.callHandlers.length + 1) with hlt | hge
      · have hi : i = st.callHandlers.length := by omega
        subst hi
        rw [foldl_registerCall_get_lt cs _ _
              (by rw [registerCall_callHandlers, List.length_append]; simp),
            registerCall_callHandlers, List.get?_concat_length]
        rfl
      · apply ih
        · rw [registerCall_callHandlers, List.length_append]; simp; omega
        · rw [registerCall_callHandlers, List.length_append]; simp at h2 ⊢; omega

/-- C3: at interface construction the `i`-th declared Call Descriptor is
assigned `functionId = i`, its 0-based declaration order (the
`static_cast<FunctionId>(callHandlers.size())` taken before the append), for
any interface with at most `2^16` declared methods; construction is a pure
fold over the declaration list, so two independently constructed instances of
the same interface type assign identical ids. -/
theorem functionId_eq_declaration_order {V : Type} (calls : List (RpcCall V))
    (i : Nat) (hi : i < calls.length) (h16 : calls.length ≤ UINT16_MOD) :
    ((mkInterface calls).callHandlers.get? i).map (fun c => c.functionId) =
      some i := by
  have h := foldl_registerCall_get_new calls (initState V) i
    (by simp [initState]) (by simp [initState]; omega)
  rw [show mkInterface calls = calls.foldl registerCall (initState V) from rfl, h,
    Nat.mod_eq_of_lt (lt_of_lt_of_le hi h16)]

theorem functionId_eq_declaration_order_witness :
    ((mkInterface (V := Nat)
          [{ remoteCallback := none, returnsVoid := true, functionId := 0 },
           { remoteCallback := none, returnsVoid := false, functionId := 9 }]
        ).callHandlers.get? 1).map (fun c => c.functionId) = some 1 :=
  functionId_eq_declaration_order (V := Nat)
    [{ remoteCallback := none, returnsVoid := true, functionId := 0 },
     { remoteCallback := none, returnsVoid := false, functionId := 9 }]
    1 (by decide) (by decide)

/-- C5: a local invocation hands the transport send hook a packet with
`callType = Call`, `functionId` equal to the descriptor's own id, `callId`
freshly minted by `getNextCallId` (the incremented counter, minted for void
methods too since `invoke` never branches on the return type), and payload
`serialize(args)`; the invocation returns exactly what the send hook returns,
and the only state change is the incremented counter. -/
theorem invoke_builds_call_packet {V W ρ : Type} (ser : V → W)
    (send : RpcPacket W → ρ) (st : RpcInterfaceState V) (desc : RpcCall V)
    (args : V) :
    invoke ser send st desc args =
      (send { instanceId := st.instanceId
              functionId := desc.functionId
              callId := (st.callIdCounter + 1) % UINT32_MOD
              callType := CallType.Call
              payload := ser args },
       { st with callIdCounter := (st.callIdCounter + 1) % UINT32_MOD }) := rfl

/-- C6: a dispatched packet whose `functionId` is not registered — out of range
of the `callHandlers` vector for a `Call`, absent from the `resultHandlers` map
for a `Response` — raises no error, invokes no handler, sends nothing and
leaves the registry state unchanged. -/
theorem dispatch_unknown_functionId_noop {V W : Type} (ser : V → W)
    (deser : W → V) (st : RpcInterfaceState V) (p : RpcPacket W) :
    (p.callType = CallType.Call → st.callHandlers.length ≤ p.functionId →
      dispatch ser deser st p = noopResult st) ∧
    (p.callType = CallType.Response → p.functionId ∉ st.resultHandlerIds →
      dispatch ser deser st p = noopResult st) := by
  constructor
  · intro hct hlen
    unfold dispatch
    rw [if_pos hct, List.get?_eq_none.mpr hlen]
  · intro hct hmem
    unfold dispatch
    rw [if_neg (by rw [hct]; intro h; cases h), if_neg hmem]

theorem dispatch_unknown_functionId_noop_witness :
    dispatch (V := Nat) id id (initState Nat)
        { instanceId := 0, functionId := 0, callId := 0,
          callType := CallType.Call, payload := (5 : Nat) } =
      noopResult (initState Nat) :=
  (dispatch_unknown_functionId_noop id id (initState Nat) _).1 rfl (Nat.le_refl 0)

/-- C2: dispatching a `Call` packet whose `functionId` is registered but whose
descriptor has no bound `remoteCallback` invokes the empty `std::function`,
which throws `std::bad_function_call`; the exception propagates out of
`dispatch` (it does not complete silently), nothing is sent, no handler and no
completion runs, and the registry state is unchanged. -/
theorem dispatch_unbound_handler_fails {V W : Type} (ser : V → W)
    (deser : W → V) (st : RpcInterfaceState V) (p : RpcPacket W)
    (self : RpcCall V)
    (hct : p.callType = CallType.Call)
    (hget : st.callHandlers.get? p.functionId = some self)
    (hcb : self.remoteCallback = none) :
    dispatch ser deser st p =
      { error := some RpcError.badFunctionCall, state := st, sent := [],
        handlerCalls := [], results := [] } := by
  rw [dispatch_call_found ser deser st p self hct hget]
  unfold callHandler
  rw [hcb]

theorem dispatch_unbound_handler_fails_witness :
    dispatch (V := Nat) id id
        (mkInterface [{ remoteCallback := none, returnsVoid := true, functionId := 0 }])
        { instanceId := 0, functionId := 0, callId := 1,
          callType := CallType.Call, payload := (5 : Nat) } =
      { error := some RpcError.badFunctionCall
        state := mkInterface [{ remoteCallback := none, returnsVoid := true, functionId := 0 }]
        sent := [], handlerCalls := [], results := [] } :=
  dispatch_unbound_handler_fails id id _ _
    { remoteCallback := none, returnsVoid := true, functionId := 0 }
    rfl rfl rfl

/-- C8: for every packet, `dispatch` leaves the whole registry state — the
call-handler table, the response-handler table, the call-id counter and the
instance id — unchanged, including when the dispatched call fails; and every
packet sent during dispatch (the automatic `Response`) reuses the inbound
packet's `callId`, so no new call id is minted. -/
theorem dispatch_frame {V W : Type} (ser : V → W) (deser : W → V)
    (st : RpcInterfaceState V) (p : RpcPacket W) :
    (dispatch ser deser st p).state = st ∧
    ∀ q ∈ (dispatch ser deser st p).sent, q.callId = p.callId := by
  refine ⟨dispatch_state ser deser st p, ?_⟩
  unfold dispatch
  split
  · cases hget : st.callHandlers.get? p.functionId with
    | none => intro q hq; simp [noopResult] at hq
    | some self =>
        simp only
        intro q hq
        exact (callHandler_sent_callId ser deser st self p q hq).1
  · split
    · intro q hq; simp [resultHandler] at hq
    · intro q hq; simp [noopResult] at hq

/-- C4: dispatching a `Call` packet to a registered descriptor with a bound
handler and a non-void declared return type invokes the handler on the
deserialized arguments and then builds and sends exactly one response packet:
`callType = Response`, `callId` equal to the inbound packet's `callId`,
`functionId` unchanged, and payload the serialization of the handler's result.
(`hfid` records that the descriptor found at index `packet.functionId` carries
that same id, which registration guarantees.) -/
theorem dispatch_call_sends_exactly_one_response {V W : Type} (ser : V → W)
    (deser : W → V) (st : RpcInterfaceState V) (p : RpcPacket W)
    (self : RpcCall V) (f : V → V)
    (hct : p.callType = CallType.Call)
    (hget : st.callHandlers.get? p.functionId = some self)
    (hcb : self.remoteCallback = some f)
    (hnv : self.returnsVoid = false)
    (hfid : self.functionId = p.functionId) :
    dispatch ser deser st p =
      { error := none, state := st,
        sent := [{ instanceId := st.instanceId, functionId := p.functionId,
                   callId := p.callId, callType := CallType.Response,
                   payload := ser (f (deser p.payload)) }],
        handlerCalls := [(p.functionId, deser p.payload)], results := [] } := by
  rw [dispatch_call_found ser deser st p self hct hget]
  unfold callHandler
  rw [hcb]
  dsimp only
  rw [hnv]
  simp only [Bool.false_eq_true, if_false, hfid, doRemoteCall]

theorem dispatch_call_sends_exactly_one_response_witness :
    dispatch (V := Nat) id id
        (mkInterface [{ remoteCallback := some (fun v => v * v), returnsVoid := false,
                        functionId := 0 }])
        { instanceId := 0, functionId := 0, callId := 9,
          callType := CallType.Call, payload := (5 : Nat) } =
      { error := none
        state := mkInterface [{ remoteCallback := some (fun v => v * v), returnsVoid := false,
                                functionId := 0 }]
        sent := [{ instanceId := 0, functionId := 0, callId := 9,
                   callType := CallType.Response, payload := (25 : Nat) }]
        handlerCalls := [(0, 5)], results := [] } :=
  dispatch_call_sends_exactly_one_response id id _ _
    { remoteCallback := some (fun v => v * v), returnsVoid := false, functionId := 0 }
    (fun v => v * v) rfl rfl rfl rfl rfl

/-- Concrete state and packet used by the frame-property witness: one bound
non-void method, inbound call with callId 7. -/
def fwState : RpcInterfaceState Nat :=
  mkInterface [{ remoteCallback := some (fun v => v + 1), returnsVoid := false,
                 functionId := 0 }]

def fwPacket : RpcPacket Nat :=
  { instanceId := 0, functionId := 0, callId := 7,
    callType := CallType.Call, payload := (5 : Nat) }

def fwResponse : RpcPacket Nat :=
  { instanceId := 0, functionId := 0, callId := 7,
    callType := CallType.Response, payload := (6 : Nat) }

theorem dispatch_frame_witness :
    (dispatch (V := Nat) id id fwState fwPacket).state = fwState ∧
    fwResponse.callId = 7 :=
  ⟨(dispatch_frame id id fwState fwPacket).1,
   (dispatch_frame id id fwState fwPacket).2 fwResponse (by decide)⟩

/-- The registry state after `n` successive calls to `getNextCallId()`. -/
def iterateNextCallId {V : Type} (st : RpcInterfaceState V) :
    Nat → RpcInterfaceState V
  | 0 => st
  | n + 1 => (getNextCallId (iterateNextCallId st n)).2

/-- The value returned by the `(n+1)`-st successive call to `getNextCallId()`
on a registry whose counter starts at `st.callIdCounter`. -/
def returnedCallId {V : Type} (st : RpcInterfaceState V) (n : Nat) : Nat :=
  (getNextCallId (iterateNextCallId st n)).1

theorem iterateNextCallId_counter {V : Type} (st : RpcInterfaceState V)
    (n : Nat) :
    (iterateNextCallId st (n + 1)).callIdCounter =
      (st.callIdCounter + (n + 1)) % UINT32_MOD := by
  induction n with
  | zero => rfl
  | succ k ih =>
      show ((iterateNextCallId st (k + 1)).callIdCounter + 1) % UINT32_MOD = _
      rw [ih, Nat.mod_add_mod]
      exact rfl

theorem returnedCallId_eq {V : Type} (st : RpcInterfaceState V) (n : Nat)
    (h0 : st.callIdCounter = 0) (hn : n + 1 < UINT32_MOD) :
    returnedCallId st n = n + 1 := by
  cases n with
  | zero =>
      show (st.callIdCounter + 1) % UINT32_MOD = 1
      rw [h0, Nat.mod_eq_of_lt hn]
  | succ k =>
      show ((iterateNextCallId st (k + 1)).callIdCounter + 1) % UINT32_MOD = k + 2
      rw [iterateNextCallId_counter, h0, Nat.zero_add, Nat.mod_add_mod,
        Nat.mod_eq_of_lt (by omega)]

/-- C7: on one registry whose `uint32_t` counter starts at 0 (a fresh
interface), successive `getNextCallId()` calls return strictly increasing
values — the `m`-th returned value is smaller than the `n`-th whenever
`m < n` — as long as fewer than `2^32` ids have been minted (the counter is
incremented by one modulo `2^32`, so the guarantee stops at wraparound). -/
theorem getNextCallId_strictly_increasing {V : Type}
    (st : RpcInterfaceState V) (h0 : st.callIdCounter = 0) (m n : Nat)
    (hmn : m < n) (hn : n + 1 < UINT32_MOD) :
    returnedCallId st m < returnedCallId st n := by
  rw [returnedCallId_eq st m h0 (by omega), returnedCallId_eq st n h0 hn]
  omega

theorem getNextCallId_strictly_increasing_witness :
    returnedCallId (initState Nat) 0 < returnedCallId (initState Nat) 1 :=
  getNextCallId_strictly_increasing (initState Nat) rfl 0 1 (by decide)
    (by unfold UINT32_MOD; omega)

/-- C9: every packet the core builds carries the building endpoint's own
current instance id: the `Call` packet produced by a local invocation reports
`getInstanceId()` of the sender, and every automatic `Response` packet sent
during dispatch reports the dispatching endpoint's instance id; the destination
id is never stamped. -/
theorem outbound_packets_carry_own_instanceId {V W : Type} (ser : V → W)
    (deser : W → V) (st : RpcInterfaceState V) (desc : RpcCall V) (args : V)
    (p : RpcPacket W) :
    (invoke ser (fun q => q.instanceId) st desc args).1 = st.instanceId ∧
    ∀ q ∈ (dispatch ser deser st p).sent, q.instanceId = st.instanceId := by
  refine ⟨rfl, ?_⟩
  unfold dispatch
  split
  · cases hget : st.callHandlers.get? p.functionId with
    | none => intro q hq; simp [noopResult] at hq
    | some self =>
        simp only
        intro q hq
        exact (callHandler_sent_callId ser deser st self p q hq).2
  · split
    · intro q hq; simp [resultHandler] at hq
    · intro q hq; simp [noopResult] at hq

/-- Concrete state and packets used by the instance-id witness: endpoint with
instance id 3, one bound non-void method. -/
def iwState : RpcInterfaceState Nat :=
  setInstanceId (mkInterface [{ remoteCallback := some (fun v => v * 2),
                                returnsVoid := false, functionId := 0 }]) 3

def iwPacket : RpcPacket Nat :=
  { instanceId := 9, functionId := 0, callId := 2,
    callType := CallType.Call, payload := (5 : Nat) }

def iwResponse : RpcPacket Nat :=
  { instanceId := 3, functionId := 0, callId := 2,
    callType := CallType.Response, payload := (10 : Nat) }

theorem outbound_packets_carry_own_instanceId_witness :
    (invoke (V := Nat) (W := Nat) id (fun q => q.instanceId) iwState
        { remoteCallback := some (fun v => v * 2), returnsVoid := false, functionId := 0 }
        (4 : Nat)).1 = iwState.instanceId ∧
    iwResponse.instanceId = iwState.instanceId :=
  ⟨(outbound_packets_carry_own_instanceId id id iwState
      { remoteCallback := some (fun v => v * 2), returnsVoid := false, functionId := 0 }
      (4 : Nat) iwPacket).1,
   (outbound_packets_carry_own_instanceId id id iwState
      { remoteCallback := some (fun v => v * 2), returnsVoid := false, functionId := 0 }
      (4 : Nat) iwPacket).2 iwResponse (by decide)⟩

/-- The registration signature of a descriptor: its assigned `functionId` and
whether its declared return type is void.  Binding or rebinding the local
callback never changes it. -/
def regSig {V : Type} (c : RpcCall V) : Nat × Bool := (c.functionId, c.returnsVoid)

/-- The key set of the `resultHandlers` map holds an id exactly when some
registered descriptor with that `functionId` has a non-void return type. -/
def respInvariant {V : Type} (st : RpcInterfaceState V) : Prop :=
  ∀ fid, fid ∈ st.resultHandlerIds ↔ (fid, false) ∈ st.callHandlers.map regSig

/-- The post-construction operations a user can perform on a registry other
than dispatching: binding a handler, minting a call id, setting the instance
id. -/
inductive Op (V : Type) where
  | bindOp (i : Nat) (f : V → V)
  | nextCallIdOp
  | setInstanceOp (id : Nat)

def applyOp {V : Type} (st : RpcInterfaceState V) : Op V → RpcInterfaceState V
  | .bindOp i f => bindCallback st i f
  | .nextCallIdOp => (getNextCallId st).2
  | .setInstanceOp id => setInstanceId st id

def applyOps {V : Type} (st : RpcInterfaceState V) (ops : List (Op V)) :
    RpcInterfaceState V :=
  ops.foldl applyOp st

theorem bindAt_map_regSig {V : Type} (l : List (RpcCall V)) (i : Nat)
    (f : V → V) : (bindAt l i f).map regSig = l.map regSig := by
  induction l generalizing i with
  | nil => rfl
  | cons c cs ih =>
      cases i with
      | zero => rfl
      | succ n => show regSig c :: (bindAt cs n f).map regSig = _; rw [ih]; rfl

theorem respInvariant_initState (V : Type) : respInvariant (initState V) := by
  intro fid
  simp [initState]

theorem respInvariant_registerCall {V : Type} (st : RpcInterfaceState V)
    (c : RpcCall V) (h : respInvariant st) :
    respInvariant (registerCall st c) := by
  intro fid
  unfold registerCall
  dsimp only
  rw [List.map_append, List.mem_append]
  constructor
  · intro hmem
    by_cases hrv : c.returnsVoid
    · rw [if_pos hrv] at hmem
      exact Or.inl ((h fid).mp hmem)
    · rw [if_neg hrv] at hmem
      by_cases hin : st.callHandlers.length % UINT16_MOD ∈ st.resultHandlerIds
      · rw [if_pos hin] at hmem
        exact Or.inl ((h fid).mp hmem)
      · rw [if_neg hin] at hmem
        rcases List.mem_cons.mp hmem with heq | hmem2
        · subst heq
          refine Or.inr ?_
          simp [regSig, Bool.eq_false_iff.mpr hrv]
        · exact Or.inl ((h fid).mp hmem2)
  · intro hmem
    rcases hmem with hold | hnew
    · have hm := (h fid).mpr hold
      by_cases hrv : c.returnsVoid
      · rw [if_pos hrv]; exact hm
      · rw [if_neg hrv]
        by_cases hin : st.callHandlers.length % UINT16_MOD ∈ st.resultHandlerIds
        · rw [if_pos hin]; exact hm
        · rw [if_neg hin]; exact List.mem_cons_of_mem _ hm
    · simp only [List.map_cons, List.map_nil, List.mem_singleton, regSig,
        Prod.mk.injEq] at hnew
      obtain ⟨hfid, hrv⟩ := hnew
      rw [if_neg (by rw [← hrv]; intro hh; cases hh)]
      rw [← hfid]
      by_cases hin : fid ∈ st.resultHandlerIds
      · rw [if_pos hin]; exact hin
      · rw [if_neg hin]; exact List.mem_cons_self _ _

theorem respInvariant_mkInterface {V : Type} (calls : List (RpcCall V)) :
    respInvariant (mkInterface calls) := by
  unfold mkInterface
  generalize hst : initState V = st
  have h0 : respInvariant st := hst ▸ respInvariant_initState V
  clear hst
  induction calls generalizing st with
  | nil => exact h0
  | cons c cs ih => exact ih _ (respInvariant_registerCall st c h0)

theorem respInvariant_applyOp {V : Type} (st : RpcInterfaceState V) (op : Op V)
    (h : respInvariant st) : respInvariant (applyOp st op) := by
  cases op with
  | bindOp i f =>
      intro fid
      show fid ∈ st.resultHandlerIds ↔ _
      rw [show (applyOp st (Op.bindOp i f)).callHandlers = bindAt st.callHandlers i f
            from rfl,
        bindAt_map_regSig]
      exact h fid
  | nextCallIdOp => exact h
  | setInstanceOp id => exact h

theorem respInvariant_applyOps {V : Type} (st : RpcInterfaceState V)
    (ops : List (Op V)) (h : respInvariant st) :
    respInvariant (applyOps st ops) := by
  unfold applyOps
  induction ops generalizing st with
  | nil => exact h
  | cons op ops ih => exact ih _ (respInvariant_applyOp st op h)

/-- C10: the `resultHandlers` table holds an id exactly when a method with
non-void return type was registered under that id; the invariant holds at
construction, is kept by every post-construction operation (binding handlers,
minting call ids, setting the instance id) and by dispatch; consequently a
`Response` packet whose `functionId` names only void-returning methods is
silently dropped: no error, no completion invocation, no state change. -/
theorem responseTable_iff_nonvoid {V W : Type} (calls : List (RpcCall V))
    (ops : List (Op V)) (ser : V → W) (deser : W → V) (p : RpcPacket W) :
    respInvariant (applyOps (mkInterface calls) ops) ∧
    (∀ st : RpcInterfaceState V, respInvariant st →
        respInvariant (dispatch ser deser st p).state) ∧
    (∀ st : RpcInterfaceState V, respInvariant st →
        p.callType = CallType.Response →
        (∀ c ∈ st.callHandlers, c.functionId = p.functionId →
          c.returnsVoid = true) →
        dispatch ser deser st p = noopResult st) := by
  refine ⟨respInvariant_applyOps _ ops (respInvariant_mkInterface calls),
    fun st h => by rw [dispatch_state]; exact h, fun st h hct hvoid => ?_⟩
  have hnot : p.functionId ∉ st.resultHandlerIds := by
    intro hmem
    have hm := (h p.functionId).mp hmem
    obtain ⟨c, hc, hsig⟩ := List.mem_map.mp hm
    unfold regSig at hsig
    have hfid : c.functionId = p.functionId := congrArg Prod.fst hsig
    have hrv : c.returnsVoid = false := congrArg Prod.snd hsig
    rw [hvoid c hc hfid] at hrv
    cases hrv
  unfold dispatch
  rw [if_neg (by rw [hct]; intro hh; cases hh), if_neg hnot]

/-- Concrete registry used by the void-method-drop witness: a single declared
method with void return type, bound to a handler. -/
def vwState : RpcInterfaceState Nat :=
  mkInterface [{ remoteCallback := some (fun v => v), returnsVoid := true,
                 functionId := 0 }]

def vwPacket : RpcPacket Nat :=
  { instanceId := 0, functionId := 0, callId := 4,
    callType := CallType.Response, payload := (8 : Nat) }

theorem responseTable_iff_nonvoid_witness :
    dispatch (V := Nat) id id vwState vwPacket = noopResult vwState :=
  (responseTable_iff_nonvoid
      [{ remoteCallback := some (fun v => v), returnsVoid := true,
         functionId := 0 }] [] id id vwPacket).2.2
    vwState
    ((responseTable_iff_nonvoid
        [{ remoteCallback := some (fun v => v), returnsVoid := true,
           functionId := 0 }] [] id id vwPacket).1)
    rfl
    (by
      intro c hc _
      have hc2 : c = { remoteCallback := some (fun v => v), returnsVoid := true,
                       functionId := 0 } := List.mem_singleton.mp hc
      rw [hc2])

theorem dispatch_results {V W : Type} (ser : V → W) (deser : W → V)
    (st : RpcInterfaceState V) (p : RpcPacket W) :
    (dispatch ser deser st p).results =
      if p.callType = CallType.Response ∧ p.functionId ∈ st.resultHandlerIds
      then [(p.callId, deser p.payload)] else [] := by
  unfold dispatch
  split
  · rename_i hct
    rw [if_neg (by intro hh; rw [hct] at hh; cases hh.1)]
    cases hget : st.callHandlers.get? p.functionId with
    | none => rfl
    | some self => exact callHandler_results ser deser st self p
  · rename_i hct
    have hresp : p.callType = CallType.Response := by
      cases hcc : p.callType
      · exact absurd hcc hct
      · rfl
    split
    · rename_i hmem
      rw [if_pos ⟨hresp, hmem⟩]
      rfl
    · rename_i hmem
      rw [if_neg (fun hh => hmem hh.2)]
      rfl

/-- C1 (amended): the core performs no `callId` bookkeeping.  Over any
sequence of dispatched packets, the completion entry point
`onResultReturned` is invoked with call id `c` exactly once per dispatched
`Response` packet whose `functionId` has a registered result handler and whose
`callId` field equals `c` — regardless of whether `c` was ever issued or was
already resolved.  At-most-once delivery per `callId` therefore holds exactly
when the driver dispatches at most one such `Response` packet per `callId`;
only a `Response` whose `functionId` is unregistered is ignored. -/
theorem onResultReturned_once_per_response_packet {V W : Type} (ser : V → W)
    (deser : W → V) (st : RpcInterfaceState V) (pkts : List (RpcPacket W))
    (c : Nat) :
    ((dispatchAll ser deser st pkts).filter (fun e => decide (e.1 = c))).length =
      (pkts.filter (fun p => decide (p.callType = CallType.Response ∧
          p.functionId ∈ st.resultHandlerIds ∧ p.callId = c))).length := by
  induction pkts with
  | nil => rfl
  | cons p ps ih =>
      show (((dispatch ser deser st p).results ++
          dispatchAll ser deser (dispatch ser deser st p).state ps).filter
            (fun e => decide (e.1 = c))).length = _
      rw [dispatch_state, List.filter_append, List.length_append, ih,
        List.filter_cons, dispatch_results]
      by_cases h1 : p.callType = CallType.Response
      · by_cases h2 : p.functionId ∈ st.resultHandlerIds
        · by_cases h3 : p.callId = c
          · simp [h1, h2, h3, Nat.add_comm]
          · simp [h1, h2, h3]
        · simp [h1, h2]
      · simp [h1]

/-- Registry used by the never-issued-callId counterexample: one non-void
method is registered (so `resultHandlers` has key 0) and no call has ever been
made (`callIdCounter = 0`, so no `callId` was ever issued). -/
def cexState : RpcInterfaceState Nat :=
  mkInterface [{ remoteCallback := some (fun v => v), returnsVoid := false,
                 functionId := 0 }]

/-- A `Response` packet whose `callId` 42 was never issued by `cexState`. -/
def cexPacket : RpcPacket Nat :=
  { instanceId := 0, functionId := 0, callId := 42,
    callType := CallType.Response, payload := (7 : Nat) }

/-- C1 (counterexample): on a registry that never issued any call id,
dispatching a `Response` packet with `callId = 42` invokes the completion
entry point `onResultReturned (42, 7)` — not "no error and no state change" —
and dispatching the same packet twice invokes it twice for the same `callId`,
so the completion entry point is not invoked at most once per `callId`. -/
theorem response_unknown_callId_invokes_completion :
    cexState.callIdCounter = 0 ∧
    (dispatch id id cexState cexPacket).results = [(42, 7)] ∧
    dispatchAll id id cexState [cexPacket, cexPacket] = [(42, 7), (42, 7)] := by
  refine ⟨rfl, ?_, ?_⟩ <;> decide

end Rpc
